import Mathlib

/-!
Shallow embedding of the Pipeline repository's dispatch-scheduling core.

Python `dict`s (keyed by strings, insertion ordered) are modelled as
association lists `List (String × α)`; `deepcopy` is the identity on values;
Python `float`s are modelled as `ℚ`; `None`-able strings as `Option String`.
Each definition mirrors one function of the source, which is cited in its
doc comment.
-/

namespace PyDict

/-- `d[k]`, as an option: the entry with the key (dict keys are unique). -/
def lookup : List (String × α) → String → Option α
  | [], _ => none
  | p :: rest, k => if p.1 = k then some p.2 else lookup rest k

/-- `k in d`. -/
def contains : List (String × α) → String → Bool
  | [], _ => false
  | p :: rest, k => p.1 = k || contains rest k

/-- In-place mutation of the value stored at `k` (a no-op when `k` is absent),
as done by Python code that mutates the object obtained from `d[k]`. -/
def update (l : List (String × α)) (k : String) (f : α → α) : List (String × α) :=
  l.map (fun p => if p.1 = k then (p.1, f p.2) else p)

/-- `d[k] = v`: overwrite in place when the key exists, else append. -/
def insert (l : List (String × α)) (k : String) (v : α) : List (String × α) :=
  if contains l k then update l k (fun _ => v) else l ++ [(k, v)]

/-- `del d[k]` (also models the guarded `if k in d: del d[k]`). -/
def erase (l : List (String × α)) (k : String) : List (String × α) :=
  l.filter (fun p => ¬ p.1 = k)

/-- The key list of the dict, in insertion order. -/
def keys (l : List (String × α)) : List String :=
  l.map (fun p => p.1)

end PyDict

/-!
## Data model (`src/data_class.py`, `src/state.py`)

Inert configuration fields that no embedded function reads or writes
(`tank_name`, `tank_area`, `tank_capacity_per_meter`, `maximum_tank_capacity`,
`maximum_tank_level`, `tank_type`, pipe shutdown metadata, branches, ...) are
omitted; they are carried through every operation unchanged.
-/

/-- `data_class.Tank`, restricted to the fields the scheduling core touches.
`oil_type` is nullable in the source (`None` = unassigned); the empty string
is also treated as falsy by the source's truthiness tests. -/
structure Tank where
  tank_id : String
  site_id : String
  oil_type : Option String
  inventory : ℚ
  current_level : ℚ
  safe_tank_capacity : ℚ
  safe_tank_level : ℚ
  min_safe_level : ℚ
  status : String
deriving DecidableEq, Repr

/-- One entry of a pipeline's `occupancy_schedule`: the 7-tuple
`(start_time, end_time, oil_type, required_volume, source_tank_id,
target_tank_id, dispatch_order_id)` that `State.apply_dispatch_order`'s
commented-out block would append. Datetimes are modelled as integer
timestamps. -/
structure PipeReservation where
  start_time : Int
  end_time : Int
  oil_type : String
  volume : ℚ
  source_tank_id : String
  target_tank_id : String
  dispatch_order_id : String
deriving DecidableEq, Repr

/-- `data_class.Pipeline` plus the dynamic attributes (`current_oil`,
`occupancy_schedule`) that `state.py` reads via `getattr`. -/
structure Pipeline where
  pipe_id : String
  pipe_capacity_per_meter : ℚ
  current_oil : Option String
  occupancy_schedule : List PipeReservation
deriving DecidableEq, Repr

/-- `data_class.DispatchOrder` restricted to the orders whose
`pipeline_path` is an actual list. The raw dataclass declares
`pipeline_path` as `Optional[List[str]]` with default `None`;
`PyDispatchOrder` below models the raw dataclass, and
`PyDispatchOrder.withPath` relates the two. The queue managers construct
their orders with `pipeline_path or []`, so every order they build
satisfies this restriction, and the queue-manager claims (whose
conclusions concern returning executions) are stated over it. These are
exactly the declared dataclass fields: the queue managers additionally
pass `priority`, `created_at` and `notes` keywords, which this dataclass
does not accept (see `insert_order_at_position` below). -/
structure DispatchOrder where
  dispatch_order_id : String
  customer_order_id : String
  site_id : String
  oil_type : String
  required_volume : ℚ
  source_tank_id : String
  target_tank_id : String
  pipeline_path : List String
  start_time : Int
  end_time : Int
  status : String
  cleaning_required : Bool
deriving DecidableEq, Repr

/-- The raw `data_class.DispatchOrder` dataclass: `pipeline_path` is
nullable, with default `None`. -/
structure PyDispatchOrder where
  dispatch_order_id : String
  customer_order_id : String
  site_id : String
  oil_type : String
  required_volume : ℚ
  source_tank_id : String
  target_tank_id : String
  pipeline_path : Option (List String)
  start_time : Int
  end_time : Int
  status : String
  cleaning_required : Bool
deriving DecidableEq, Repr

/-- The order obtained from a raw dataclass order once its path is the
actual list `path`. -/
def PyDispatchOrder.withPath (o : PyDispatchOrder) (path : List String) :
    DispatchOrder :=
  { dispatch_order_id := o.dispatch_order_id,
    customer_order_id := o.customer_order_id, site_id := o.site_id,
    oil_type := o.oil_type, required_volume := o.required_volume,
    source_tank_id := o.source_tank_id, target_tank_id := o.target_tank_id,
    pipeline_path := path, start_time := o.start_time,
    end_time := o.end_time, status := o.status,
    cleaning_required := o.cleaning_required }

/-- `state.State`: tank and pipeline dicts plus the global metrics.
`current_time`, `tank_utilization`, `pipeline_utilization` and `constraints`
are only copied around, never consulted by the embedded operations, and are
omitted. -/
structure State where
  tanks : List (String × Tank)
  pipelines : List (String × Pipeline)
  oil_switch_count : Nat
  high_priority_satisfied : Nat
  total_dispatch_orders : Nat
  total_volume_dispatched : ℚ
deriving DecidableEq, Repr

/-- Python truthiness of a nullable string: `None` and `""` are falsy. -/
def pyStrTruthy : Option String → Bool
  | none => false
  | some s => s ≠ ""

/-- The oil-switch test `source_tank.oil_type and source_tank.oil_type !=
oil_type` shared by `State.apply_dispatch_order` (line 92) and
`State._is_oil_switch_needed_in_state` (line 168). -/
def oilSwitchCond (tank_oil : Option String) (oil_type : String) : Prop :=
  pyStrTruthy tank_oil = true ∧ tank_oil ≠ some oil_type

instance (tank_oil : Option String) (oil_type : String) :
    Decidable (oilSwitchCond tank_oil oil_type) := by
  unfold oilSwitchCond; infer_instance

/-- The source-tank mutation of `State.apply_dispatch_order`
(`state.py` lines 73-94): decrement inventory clamped at the minimum safe
level, refresh the level, and overwrite the oil type on a detected switch. -/
def updateSourceTank (o : DispatchOrder) (t : Tank) : Tank :=
  let new_inventory := t.inventory - o.required_volume
  let inv := max new_inventory t.min_safe_level
  let lvl := if 0 < t.safe_tank_capacity then inv / t.safe_tank_capacity
             else t.current_level
  let oil := if oilSwitchCond t.oil_type o.oil_type then some o.oil_type
             else t.oil_type
  { t with inventory := inv, current_level := lvl, oil_type := oil }

/-- The target-tank mutation of `State.apply_dispatch_order`
(`state.py` lines 97-117): increment inventory, refresh the level capped at
the safe tank level, and set the oil type unconditionally. -/
def updateTargetTank (o : DispatchOrder) (t : Tank) : Tank :=
  let inv := t.inventory + o.required_volume
  let lvl := if 0 < t.safe_tank_capacity
             then min (inv / t.safe_tank_capacity) t.safe_tank_level
             else t.current_level
  { t with inventory := inv, current_level := lvl, oil_type := some o.oil_type }

/-- `State._is_oil_switch_needed_in_state` (`state.py` lines 152-171). -/
def State.is_oil_switch_needed_in_state (s : State) (o : DispatchOrder) : Bool :=
  match PyDict.lookup s.tanks o.source_tank_id with
  | some t => decide (oilSwitchCond t.oil_type o.oil_type)
  | none => false

/-- `State.apply_dispatch_order` (`state.py` lines 44-150). The source
guards each tank mutation with `if tank_id in new_state.tanks`;
`PyDict.update` is the identity on an absent key, which models that guard.
The pipeline loop (lines 119-141) binds local variables but its entire
effect (appending to `occupancy_schedule`, setting `current_oil`) is
commented out in the source, so the pipeline dict is returned unchanged.
`total_volume_dispatched` is likewise only copied (the increment on line
144 is commented out). The oil-switch check (line 147) runs on `new_state`,
i.e. after the source tank's oil type has already been overwritten. -/
def State.apply_dispatch_order (s : State) (o : DispatchOrder) : State :=
  let tanks1 := PyDict.update s.tanks o.source_tank_id (updateSourceTank o)
  let tanks2 := PyDict.update tanks1 o.target_tank_id (updateTargetTank o)
  let mid : State := { s with
    tanks := tanks2,
    total_dispatch_orders := s.total_dispatch_orders + 1 }
  if mid.is_oil_switch_needed_in_state o then
    { mid with oil_switch_count := mid.oil_switch_count + 1 }
  else
    mid

/-- `State.apply_dispatch_order` on a raw dataclass order. With
`pipeline_path = None` (the dataclass default), `state.py` line 121 runs
`for pipe_id in order_data.get('pipeline_path', [])` over `None` and
raises `TypeError`; the partially updated `new_state` is a local that the
exception discards and `self` was deep-copied, so the caller observes only
the exception and no state change. With an actual list the loop body is
fully commented out and the function behaves as
`State.apply_dispatch_order` on the list-path restriction. -/
def State.apply_dispatch_order_py (s : State) (o : PyDispatchOrder) :
    Except String State :=
  match o.pipeline_path with
  | none => .error "TypeError: NoneType object is not iterable"
  | some path => .ok (s.apply_dispatch_order (o.withPath path))

/-- Loop body of `State.get_available_tanks_for_oil_type`
(`state.py` lines 208-217). A tank whose oil type mismatches is skipped;
any tank that passes the oil-type filter reaches
`getattr(tank, 'reserved_volume', 0, 0)`, a call with four arguments that
unconditionally raises `TypeError: getattr expected at most 3 arguments`,
so the capacity check and the append are unreachable. -/
def getAvailableTanksGo (oil_type : String) :
    List (String × Tank) → Except String (List String)
  | [] => .ok []
  | (_, t) :: rest =>
    if t.oil_type ≠ some oil_type ∧ t.oil_type ≠ none then
      getAvailableTanksGo oil_type rest
    else
      .error "TypeError: getattr expected at most 3 arguments, got 4"

/-- `State.get_available_tanks_for_oil_type` (`state.py` lines 192-219).
`min_volume` and `check_time` are dead: execution never reaches the
capacity comparison. -/
def State.get_available_tanks_for_oil_type (s : State) (oil_type : String)
    (min_volume : ℚ) : Except String (List String) :=
  getAvailableTanksGo oil_type s.tanks

/-!
## Concrete inputs used to evaluate the state operations
-/

/-- A source tank currently holding oil "A". -/
def tankA : Tank :=
  { tank_id := "T1", site_id := "S1", oil_type := some "A", inventory := 500,
    current_level := 0, safe_tank_capacity := 1000, safe_tank_level := 1,
    min_safe_level := 100, status := "AVAILABLE" }

/-- A tank currently holding oil "B". -/
def tankB : Tank :=
  { tank_id := "T2", site_id := "S1", oil_type := some "B", inventory := 300,
    current_level := 0, safe_tank_capacity := 1000, safe_tank_level := 1,
    min_safe_level := 50, status := "AVAILABLE" }

/-- A pipeline with an empty reservation schedule. -/
def pipeP1 : Pipeline :=
  { pipe_id := "P1", pipe_capacity_per_meter := 10, current_oil := none,
    occupancy_schedule := [] }

/-- A state with tanks T1 (oil "A") and T2 (oil "B") and pipeline P1. -/
def stateAB : State :=
  { tanks := [("T1", tankA), ("T2", tankB)], pipelines := [("P1", pipeP1)],
    oil_switch_count := 0, high_priority_satisfied := 0,
    total_dispatch_orders := 0, total_volume_dispatched := 0 }

/-- An order moving 100 units of oil "B" from T1 (whose current oil is "A",
so an oil switch is needed at the source) to T2, along pipeline P1. -/
def orderB : DispatchOrder :=
  { dispatch_order_id := "O1", customer_order_id := "C1", site_id := "S1",
    oil_type := "B", required_volume := 100, source_tank_id := "T1",
    target_tank_id := "T2", pipeline_path := ["P1"], start_time := 1000,
    end_time := 2000, status := "SCHEDULED", cleaning_required := false }

/-- An order whose endpoint tanks are not in `stateAB`'s tank dict. -/
def orderUnknown : DispatchOrder :=
  { dispatch_order_id := "O2", customer_order_id := "C1", site_id := "S1",
    oil_type := "B", required_volume := 100, source_tank_id := "TX",
    target_tank_id := "TY", pipeline_path := ["P1"], start_time := 1000,
    end_time := 2000, status := "SCHEDULED", cleaning_required := false }

/-- A raw dataclass order with unknown endpoint tanks and the default
`pipeline_path = None`. -/
def orderUnknownNone : PyDispatchOrder :=
  { dispatch_order_id := "O3", customer_order_id := "C1", site_id := "S1",
    oil_type := "B", required_volume := 100, source_tank_id := "TX",
    target_tank_id := "TY", pipeline_path := none, start_time := 1000,
    end_time := 2000, status := "SCHEDULED", cleaning_required := false }

/-- A raw dataclass order with unknown endpoint tanks and an actual path
list. -/
def orderUnknownPy : PyDispatchOrder :=
  { dispatch_order_id := "O2", customer_order_id := "C1", site_id := "S1",
    oil_type := "B", required_volume := 100, source_tank_id := "TX",
    target_tank_id := "TY", pipeline_path := some ["P1"],
    start_time := 1000, end_time := 2000, status := "SCHEDULED",
    cleaning_required := false }

/-!
## `src/dispatch_order_queue.py` — `DispatchOrderQueueManager`

The manager owns the committed ("real") state, the execution queue, the
`order_registry` dict, the per-order virtual states and the state chain.
`default_flow_rate` (the constant 500) and `last_calculation_time` feed
only the dead time computations and presentational views and are omitted.
-/

/-- The dataclass defaults of `data_class.DispatchOrder`. -/
instance : Inhabited DispatchOrder :=
  ⟨{ dispatch_order_id := "", customer_order_id := "", site_id := "",
     oil_type := "", required_volume := 0, source_tank_id := "",
     target_tank_id := "", pipeline_path := [], start_time := 0,
     end_time := 0, status := "DRAFT", cleaning_required := false }⟩

structure DispatchOrderQueueManager where
  queue : List DispatchOrder
  order_registry : List (String × DispatchOrder)
  real_system_state : State
  virtual_state_map : List (String × State)
  state_chain : List (String × State)

/-- The draft fields passed to `insert_order_at_position` and to the
`insert_order_before`/`insert_order_after` wrappers. -/
structure InsertOrderArgs where
  customer_order_id : String
  oil_type : String
  required_volume : ℚ
  source_tank_id : String
  target_tank_id : String
  site_id : String
  pipeline_path : List String
  cleaning_required : Bool
  priority : Int
  start_time : Int
  notes : String

namespace DispatchOrderQueueManager

/-- `__init__` with no initial orders (`dispatch_order_queue.py` lines
18-47). Passing initial order dicts would call
`_create_dispatch_order_from_dict`, which raises the same `TypeError` as
`insert_order_at_position` below. -/
def init (real : State) : DispatchOrderQueueManager :=
  { queue := [], order_registry := [], real_system_state := real,
    virtual_state_map := [], state_chain := [] }

/-- `_create_virtual_state_for_order` (lines 199-216): apply the order on
top of the last chained state (or the real state for an empty chain) and
record the result in the chain and the virtual-state map. -/
def create_virtual_state_for_order (m : DispatchOrderQueueManager)
    (o : DispatchOrder) : DispatchOrderQueueManager :=
  let prev := match m.state_chain.getLast? with
    | some p => p.2
    | none => m.real_system_state
  let new_state := prev.apply_dispatch_order o
  { m with
    state_chain := m.state_chain ++ [(o.dispatch_order_id, new_state)],
    virtual_state_map :=
      PyDict.insert m.virtual_state_map o.dispatch_order_id new_state }

/-- `add_order` (lines 218-239): mark the order SCHEDULED, append it to
the queue, register it (the queue and the registry share the object), and
derive its virtual state; returns the order's id. -/
def add_order (m : DispatchOrderQueueManager) (o : DispatchOrder) :
    DispatchOrderQueueManager × String :=
  let o' := { o with status := "SCHEDULED" }
  let m1 := { m with
    queue := m.queue ++ [o'],
    order_registry :=
      PyDict.insert m.order_registry o'.dispatch_order_id o' }
  (create_virtual_state_for_order m1 o', o'.dispatch_order_id)

/-- The replay loop of `_recalculate_state_chain` (lines 308-323): fold the
real state through the queue in order, recording each intermediate state. -/
def chainFrom (s : State) : List DispatchOrder → List (String × State)
  | [] => []
  | o :: rest =>
    let s' := s.apply_dispatch_order o
    (o.dispatch_order_id, s') :: chainFrom s' rest

/-- `_recalculate_state_chain` (lines 302-323): clear the chain and the
virtual-state map and rebuild both by replaying a copy of the real system
state through the entire queue. -/
def recalculate_state_chain (m : DispatchOrderQueueManager) :
    DispatchOrderQueueManager :=
  let chain := chainFrom m.real_system_state m.queue
  { m with
    state_chain := chain,
    virtual_state_map :=
      chain.foldl (fun d p => PyDict.insert d p.1 p.2) [] }

/-- `insert_order_at_position` (lines 245-300). The method clamps the
position and computes the new order's id, duration and start/end times,
but then evaluates `DispatchOrder(..., priority=priority, notes=notes)` —
and `data_class.DispatchOrder` declares neither a `priority` nor a `notes`
field, so the dataclass constructor raises `TypeError` before the queue,
the registry or the chain is touched. `genId` stands for the
`_generate_order_id()` result and `now` for `int(time.time())`; both feed
only the dead computation. -/
def insert_order_at_position (m : DispatchOrderQueueManager) (position : Int)
    (args : InsertOrderArgs) (now : Int) (genId : String) :
    Except String DispatchOrderQueueManager :=
  .error "TypeError: __init__() got an unexpected keyword argument priority"

/-- `remove_order` (lines 325-346): fail when the id is unregistered;
otherwise drop the order from the queue, the registry and the virtual-state
map, and recompute the chain. -/
def remove_order (m : DispatchOrderQueueManager) (dispatch_order_id : String) :
    DispatchOrderQueueManager × Bool :=
  if PyDict.contains m.order_registry dispatch_order_id = false then (m, false)
  else
    let m1 := { m with
      queue := m.queue.filter (fun o => ¬ o.dispatch_order_id = dispatch_order_id),
      order_registry := PyDict.erase m.order_registry dispatch_order_id,
      virtual_state_map := PyDict.erase m.virtual_state_map dispatch_order_id }
    (recalculate_state_chain m1, true)

/-- `update_real_system_state_with_order` (lines 374-397): apply the
registered order to the real state (replacing it), remove the order from
the registry, the virtual-state map and the queue, and recompute the chain
on top of the new real state. A no-op when the id is unregistered. -/
def update_real_system_state_with_order (m : DispatchOrderQueueManager)
    (dispatch_order_id : String) : DispatchOrderQueueManager :=
  match PyDict.lookup m.order_registry dispatch_order_id with
  | none => m
  | some o =>
    let m1 := { m with
      real_system_state := m.real_system_state.apply_dispatch_order o,
      order_registry := PyDict.erase m.order_registry dispatch_order_id,
      virtual_state_map := PyDict.erase m.virtual_state_map dispatch_order_id,
      queue := m.queue.filter (fun q => ¬ q.dispatch_order_id = dispatch_order_id) }
    recalculate_state_chain m1

/-- `complete_order` (lines 421-435): succeed only when the id is
registered and is the id of the queue head, in which case the order is
committed via `update_real_system_state_with_order`. -/
def complete_order (m : DispatchOrderQueueManager) (dispatch_order_id : String) :
    DispatchOrderQueueManager × Bool :=
  if PyDict.contains m.order_registry dispatch_order_id = false then (m, false)
  else
    match m.queue.head? with
    | none => (m, false)
    | some h =>
      if h.dispatch_order_id = dispatch_order_id then
        (update_real_system_state_with_order m dispatch_order_id, true)
      else (m, false)

/-- `cancel_order` (lines 437-446): mark the registered order CANCELLED
(the registry entry and the queue entry are the same Python object, so
both views change) and then `remove_order` it. -/
def cancel_order (m : DispatchOrderQueueManager) (dispatch_order_id : String) :
    DispatchOrderQueueManager × Bool :=
  if PyDict.contains m.order_registry dispatch_order_id = false then (m, false)
  else
    let m1 := { m with
      queue := m.queue.map (fun q =>
        if q.dispatch_order_id = dispatch_order_id
        then { q with status := "CANCELLED" } else q),
      order_registry := PyDict.update m.order_registry dispatch_order_id
        (fun q => { q with status := "CANCELLED" }) }
    remove_order m1 dispatch_order_id

/-- `move_order` (lines 448-478): clamp the target position into
`[0, len]`, locate the order, and when the position actually changes, pop
it and re-insert it (Python's `list.insert`, which clamps at the tail) and
recompute the chain. -/
def move_order (m : DispatchOrderQueueManager) (dispatch_order_id : String)
    (new_position : Int) : DispatchOrderQueueManager × Bool :=
  if PyDict.contains m.order_registry dispatch_order_id = false then (m, false)
  else
    let len : Int := m.queue.length
    let np := if new_position < 0 ∨ new_position > len
              then max 0 (min new_position len) else new_position
    match m.queue.findIdx? (fun o => o.dispatch_order_id = dispatch_order_id) with
    | none => (m, false)
    | some cur =>
      if (cur : Int) = np then (m, true)
      else
        let ord := m.queue.getD cur default
        let without := m.queue.take cur ++ m.queue.drop (cur + 1)
        let q' := without.take np.toNat ++ ord :: without.drop np.toNat
        (recalculate_state_chain { m with queue := q' }, true)

/-- The queue-mutation alphabet of the claims: `add_order`,
`insert_order_at_position`, `remove_order`, `move_order`, `complete_order`,
`cancel_order`. -/
inductive QueueMutation where
  | add (o : DispatchOrder)
  | insertAt (position : Int) (args : InsertOrderArgs) (now : Int) (genId : String)
  | remove (dispatch_order_id : String)
  | move (dispatch_order_id : String) (new_position : Int)
  | complete (dispatch_order_id : String)
  | cancel (dispatch_order_id : String)

/-- One mutation applied to the manager. `insert_order_at_position` raises
`TypeError` before touching the manager, so the caller observes the
exception with the manager unchanged. -/
def applyMutation (m : DispatchOrderQueueManager) :
    QueueMutation → DispatchOrderQueueManager
  | .add o => (add_order m o).1
  | .insertAt pos args now genId =>
    match insert_order_at_position m pos args now genId with
    | .ok m' => m'
    | .error _ => m
  | .remove dispatch_order_id => (remove_order m dispatch_order_id).1
  | .move dispatch_order_id np => (move_order m dispatch_order_id np).1
  | .complete dispatch_order_id => (complete_order m dispatch_order_id).1
  | .cancel dispatch_order_id => (cancel_order m dispatch_order_id).1

/-- A mutation sequence, applied left to right. -/
def applyMutations (m : DispatchOrderQueueManager)
    (muts : List QueueMutation) : DispatchOrderQueueManager :=
  muts.foldl applyMutation m

/-- The ids currently in the queue, in queue order. -/
def queueIds (m : DispatchOrderQueueManager) : List String :=
  m.queue.map (fun o => o.dispatch_order_id)

/-- Chain correctness: the stored `state_chain` is the replay of the real
system state through the current queue. -/
def ChainInv (m : DispatchOrderQueueManager) : Prop :=
  m.state_chain = chainFrom m.real_system_state m.queue

/-- Registry consistency for a queue/registry pair: registry keys are a
permutation of the queue's ids (same sets: no orphans), the queue has no
duplicate ids, and every queued order is registered under its own id with
its own value. -/
def RegInvQR (q : List DispatchOrder)
    (reg : List (String × DispatchOrder)) : Prop :=
  (PyDict.keys reg).Perm (q.map (fun o => o.dispatch_order_id))
  ∧ (q.map (fun o => o.dispatch_order_id)).Nodup
  ∧ ∀ o ∈ q, PyDict.lookup reg o.dispatch_order_id = some o

instance (q : List DispatchOrder) (reg : List (String × DispatchOrder)) :
    Decidable (RegInvQR q reg) := by
  unfold RegInvQR; infer_instance

/-- Registry consistency of a manager. -/
def RegInv (m : DispatchOrderQueueManager) : Prop :=
  RegInvQR m.queue m.order_registry

instance (m : DispatchOrderQueueManager) : Decidable (RegInv m) := by
  unfold RegInv; infer_instance

/-- Each `add_order` in a mutation sequence supplies an id that is not
already registered (the ids produced by `_generate_order_id` are fresh);
checked step by step along the evolving manager. -/
def freshAdds (m : DispatchOrderQueueManager) : List QueueMutation → Bool
  | [] => true
  | step :: rest =>
    (match step with
     | .add o => !PyDict.contains m.order_registry o.dispatch_order_id
     | _ => true)
    && freshAdds (applyMutation m step) rest

end DispatchOrderQueueManager

/-!
## `src/framework.py` — `PipelineScheduler` path finding

The rule-based scheduler variant. Static fields never read by the path
finder (`start_node`, `end_node`, `max_pressure`, `length`) are omitted.
-/

namespace framework

/-- `framework.PipelineState`: per-pipeline capacity, current oil and the
reservation schedule `(start_time, end_time, oil_type, quantity)`. -/
structure PipelineState where
  capacity : ℚ
  current_oil : Option String
  occupancy_schedule : List (ℚ × ℚ × String × ℚ)
deriving DecidableEq, Repr

/-- `PipelineScheduler._get_all_paths` (`framework.py` lines 236-244): a
hardcoded route table with a default route. -/
def get_all_paths (source target : String) : List (List String) :=
  if source = "tank1" ∧ target = "tank2" then [["pipe1"], ["pipe2", "pipe3"]]
  else if source = "tank1" ∧ target = "tank3" then
    [["pipe1", "pipe4"], ["pipe2", "pipe5"]]
  else [["pipe1"]]

/-- Loop of `PipelineScheduler._check_capacity` (lines 252-263):
`state.pipelines[pipeline_id]` raises `KeyError` on a missing id
(modelled as `.error ()`); a pipe with capacity below the quantity, or a
reservation overlapping `[start_time, end_time)`, yields `False`. -/
def check_capacity_go (pipes : List (String × PipelineState))
    (quantity start_time end_time : ℚ) : List String → Except Unit Bool
  | [] => .ok true
  | pid :: rest =>
    match PyDict.lookup pipes pid with
    | none => .error ()
    | some p =>
      if p.capacity < quantity then .ok false
      else if p.occupancy_schedule.any
          (fun e => ¬ (end_time ≤ e.1 ∨ start_time ≥ e.2.1)) then .ok false
      else check_capacity_go pipes quantity start_time end_time rest

/-- `PipelineScheduler._check_capacity` (lines 246-265): the duration is
`quantity / 10` hours, converted to seconds. -/
def check_capacity (pipes : List (String × PipelineState))
    (quantity start_time : ℚ) (path : List String) : Except Unit Bool :=
  let duration := quantity / 10
  let end_time := start_time + duration * 3600
  check_capacity_go pipes quantity start_time end_time path

/-- Per-pipe contribution of `RuleBasedScoring.calculate_score`
(lines 159-186): +100 for a matching current oil else -80 when set, a
further +50 for a match, +20 when the capacity suffices else -30. -/
def pipe_score (p : PipelineState) (oil_type : String) (quantity : ℚ) : ℚ :=
  (if p.current_oil = some oil_type then 100
   else if p.current_oil ≠ none then -80 else 0)
  + (if p.current_oil = some oil_type then 50 else 0)
  + (if quantity ≤ p.capacity then 20 else -30)

/-- The accumulating loop of `RuleBasedScoring.calculate_score`; missing
pipeline ids raise `KeyError`. -/
def calculate_score_go (pipes : List (String × PipelineState))
    (oil_type : String) (quantity : ℚ) (score : ℚ) :
    List String → Except Unit ℚ
  | [] => .ok score
  | pid :: rest =>
    match PyDict.lookup pipes pid with
    | none => .error ()
    | some p =>
      calculate_score_go pipes oil_type quantity
        (score + pipe_score p oil_type quantity) rest

/-- `RuleBasedScoring.calculate_score` over a whole path. -/
def calculate_score (pipes : List (String × PipelineState))
    (oil_type : String) (quantity : ℚ) (path : List String) :
    Except Unit ℚ :=
  calculate_score_go pipes oil_type quantity 0 path

/-- The path-collection loop of `PipelineScheduler.find_feasible_path`
(lines 216-227): paths failing `_check_capacity` are skipped, the rest are
scored. -/
def collect_scored (pipes : List (String × PipelineState))
    (oil_type : String) (quantity start_time : ℚ) :
    List (List String) → Except Unit (List (List String × ℚ))
  | [] => .ok []
  | path :: rest =>
    match check_capacity pipes quantity start_time path with
    | .error e => .error e
    | .ok false => collect_scored pipes oil_type quantity start_time rest
    | .ok true =>
      match calculate_score pipes oil_type quantity path with
      | .error e => .error e
      | .ok sc =>
        match collect_scored pipes oil_type quantity start_time rest with
        | .error e => .error e
        | .ok tail => .ok ((path, sc) :: tail)

/-- Python's `max(..., key=lambda x: x[1])`: the first element of maximal
score wins (a later element replaces the current best only when strictly
greater). -/
def pyMaxBySnd : (List String × ℚ) → List (List String × ℚ) → List String × ℚ
  | best, [] => best
  | best, x :: rest => pyMaxBySnd (if best.2 < x.2 then x else best) rest

/-- `PipelineScheduler.find_feasible_path` (lines 202-234): collect the
candidate routes, drop the infeasible ones, and return the best-scoring
feasible route — `None` (not an exception) when no route survives. -/
def find_feasible_path (source target oil_type : String)
    (quantity start_time : ℚ) (pipes : List (String × PipelineState)) :
    Except Unit (Option (List String × ℚ)) :=
  let possible := get_all_paths source target
  if possible.isEmpty then .ok none
  else
    match collect_scored pipes oil_type quantity start_time possible with
    | .error e => .error e
    | .ok [] => .ok none
    | .ok (x :: rest) => .ok (some (pyMaxBySnd x rest))

/-- Concrete pipelines for the C8 witness: every pipe on every candidate
tank1→tank2 route has capacity 5. -/
def smallPipes : List (String × PipelineState) :=
  [("pipe1", { capacity := 5, current_oil := none, occupancy_schedule := [] }),
   ("pipe2", { capacity := 5, current_oil := none, occupancy_schedule := [] }),
   ("pipe3", { capacity := 5, current_oil := none, occupancy_schedule := [] })]

end framework

/-!
## `src/_dispatch_queue.py` — the earlier `DispatchOrderQueueManager` draft

This module's manager keeps no state chain; it shares
`data_class.DispatchOrder` with the newer manager, and its
`insert_order_at_position` builds the order with the same unsupported
`priority=`/`notes=` keyword arguments.
-/

namespace legacy

/-- A raised Python exception, distinguished by class. -/
inductive PyError where
  | valueError (msg : String)
  | typeError (msg : String)
deriving DecidableEq, Repr

/-- The `_dispatch_queue.py` manager's state (`__init__`, lines 16-32):
queue, registry and the configurable `default_flow_rate`.
`last_calculation_time` feeds no embedded operation and is omitted. -/
structure Manager where
  queue : List DispatchOrder
  order_registry : List (String × DispatchOrder)
  default_flow_rate : ℚ

/-- Python `int(...)` on a float: truncation toward zero. -/
def pyInt (q : ℚ) : Int :=
  if 0 ≤ q then Int.floor q else Int.ceil q

/-- `_estimate_duration` (`_dispatch_queue.py` lines 38-62): volume over
an oil-type-adjusted flow rate, in seconds, at least one minute. -/
def estimate_duration (default_flow_rate : ℚ) (volume : ℚ)
    (oil_type : String) : Int :=
  if volume ≤ 0 then 0
  else
    let modifier : ℚ :=
      if oil_type = "" then 1
      else
        let s := oil_type.toLower
        if s = "heavy_oil" then 7/10
        else if s = "bitumen" then 3/5
        else if s = "gasoline" then 11/10
        else if s = "diesel" then 11/10
        else if s = "jetfuel" then 21/20
        else 1
    let flow_rate := default_flow_rate * modifier
    let hours := volume / flow_rate
    max 60 (pyInt (hours * 3600))

/-- `insert_order_at_position` (`_dispatch_queue.py` lines 240-302). The
method clamps the position into `[0, len]`, picks a start time (explicit,
from `time.time()` = `now`, or the predecessor's end time) and a duration
via `estimate_duration`, and then evaluates
`DispatchOrder(..., priority=priority, notes=notes)`; the dataclass
`data_class.DispatchOrder` has neither field, so the constructor raises
`TypeError` before the queue or the registry is modified — the computed
position and times are discarded with the exception. `genId` stands for
the `_generate_order_id()` result. -/
def insert_order_at_position (m : Manager) (position : Int)
    (args : InsertOrderArgs) (now : Int) (genId : String) :
    Except PyError (Manager × String) :=
  .error (.typeError "__init__() got an unexpected keyword argument priority")

/-- `insert_order_before` (lines 304-337): a `ValueError` when the
reference id is unregistered or not in the queue; otherwise delegate to
`insert_order_at_position` at the reference order's position. -/
def insert_order_before (m : Manager) (reference_order_id : String)
    (args : InsertOrderArgs) (now : Int) (genId : String) :
    Except PyError (Manager × String) :=
  if PyDict.contains m.order_registry reference_order_id = false then
    .error (.valueError ("参考订单 " ++ reference_order_id ++ " 不存在"))
  else
    match m.queue.findIdx?
        (fun o => o.dispatch_order_id = reference_order_id) with
    | none =>
      .error (.valueError ("参考订单 " ++ reference_order_id ++ " 不在队列中"))
    | some position =>
      insert_order_at_position m (position : Int) args now genId

/-- `insert_order_after` (lines 339-372): as `insert_order_before`, but
delegating at the reference order's position plus one. -/
def insert_order_after (m : Manager) (reference_order_id : String)
    (args : InsertOrderArgs) (now : Int) (genId : String) :
    Except PyError (Manager × String) :=
  if PyDict.contains m.order_registry reference_order_id = false then
    .error (.valueError ("参考订单 " ++ reference_order_id ++ " 不存在"))
  else
    match m.queue.findIdx?
        (fun o => o.dispatch_order_id = reference_order_id) with
    | none =>
      .error (.valueError ("参考订单 " ++ reference_order_id ++ " 不在队列中"))
    | some position =>
      insert_order_at_position m ((position : Int) + 1) args now genId

/-- A legacy manager holding the single queued, registered order "O1". -/
def lmgr : Manager :=
  { queue := [orderB], order_registry := [("O1", orderB)],
    default_flow_rate := 500 }

/-- Draft fields for the C9 evaluation. -/
def largs : InsertOrderArgs :=
  { customer_order_id := "C2", oil_type := "A", required_volume := 50,
    source_tank_id := "T1", target_tank_id := "T2", site_id := "S1",
    pipeline_path := [], cleaning_required := false, priority := 1,
    start_time := 0, notes := "" }

end legacy

/-!
## Theorems
-/

namespace PyDict

theorem contains_iff_mem_keys (l : List (String × α)) (k : String) :
    contains l k = true ↔ k ∈ keys l := by
  induction l with
  | nil => simp [contains, keys]
  | cons p rest ih =>
    by_cases hp : p.1 = k
    · simp [contains, keys, hp]
    · have : ¬ k = p.1 := fun h => hp h.symm
      simp [contains, keys, hp, this, ih]

theorem contains_eq_isSome_lookup (l : List (String × α)) (k : String) :
    contains l k = (lookup l k).isSome := by
  induction l with
  | nil => simp [contains, lookup]
  | cons p rest ih =>
    by_cases hp : p.1 = k <;> simp [contains, lookup, hp, ih]

theorem lookup_update (l : List (String × α)) (k j : String) (f : α → α) :
    lookup (update l k f) j =
      if j = k then (lookup l j).map f else lookup l j := by
  induction l with
  | nil => by_cases h : j = k <;> simp [update, lookup, h]
  | cons p rest ih =>
    simp only [update, List.map_cons]
    by_cases hpk : p.1 = k
    · by_cases hjk : j = k
      · subst hjk
        simp only [update, lookup, if_pos hpk] at ih ⊢
        simp [lookup, hpk, ih]
      · have hpj : ¬ p.1 = j := by
          rw [hpk]; intro hh; exact hjk hh.symm
        have hkj : ¬ k = j := fun hh => hjk hh.symm
        simp only [update] at ih
        simp [lookup, hpk, hpj, hjk, hkj, ih]
    · by_cases hpj : p.1 = j
      · have hjk : ¬ j = k := fun h => hpk (by rw [hpj, h])
        simp [lookup, hpk, hpj, hjk]
      · simp only [update] at ih
        simp [lookup, hpk, hpj, ih]

theorem update_of_not_contains (l : List (String × α)) (k : String) (f : α → α)
    (h : contains l k = false) : update l k f = l := by
  induction l with
  | nil => simp [update]
  | cons p rest ih =>
    simp only [contains, Bool.or_eq_false_iff, decide_eq_false_iff_not] at h
    simp only [update, List.map_cons, if_neg h.1]
    simp only [update] at ih
    rw [ih h.2]

theorem keys_update (l : List (String × α)) (k : String) (f : α → α) :
    keys (update l k f) = keys l := by
  induction l with
  | nil => simp [update, keys]
  | cons p rest ih =>
    by_cases hp : p.1 = k <;>
      simpa [update, keys, hp] using ih

theorem keys_insert (l : List (String × α)) (k : String) (v : α) :
    keys (insert l k v) = if contains l k then keys l else keys l ++ [k] := by
  by_cases h : contains l k
  · simp [insert, h, keys_update]
  · simp [insert, h, keys]

theorem keys_erase (l : List (String × α)) (k : String) :
    keys (erase l k) = (keys l).filter (fun j => ¬ j = k) := by
  induction l with
  | nil => simp [erase, keys]
  | cons p rest ih =>
    by_cases hp : p.1 = k <;>
      simpa [erase, keys, List.filter_cons, hp] using ih

theorem lookup_append_singleton_self (l : List (String × α)) (k : String) (v : α)
    (h : contains l k = false) : lookup (l ++ [(k, v)]) k = some v := by
  induction l with
  | nil => simp [lookup]
  | cons p rest ih =>
    simp only [contains, Bool.or_eq_false_iff, decide_eq_false_iff_not] at h
    simp only [List.cons_append, lookup, if_neg h.1]
    exact ih h.2

theorem lookup_append_singleton_of_ne (l : List (String × α)) (k j : String) (v : α)
    (h : ¬ j = k) : lookup (l ++ [(k, v)]) j = lookup l j := by
  induction l with
  | nil =>
    simp only [List.nil_append, lookup]
    rw [if_neg (fun he => h he.symm)]
  | cons p rest ih =>
    by_cases hp : p.1 = j <;> simp [lookup, hp, ih]

theorem lookup_insert_self (l : List (String × α)) (k : String) (v : α) :
    lookup (insert l k v) k = some v := by
  by_cases h : contains l k
  · rw [insert, if_pos h, lookup_update, if_pos rfl]
    have hs := contains_eq_isSome_lookup l k
    rw [h] at hs
    rcases Option.isSome_iff_exists.mp hs.symm with ⟨w, hw⟩
    simp [hw]
  · rw [insert, if_neg h]
    exact lookup_append_singleton_self l k v (by simpa using h)

theorem lookup_insert_of_ne (l : List (String × α)) (k j : String) (v : α)
    (h : ¬ j = k) : lookup (insert l k v) j = lookup l j := by
  by_cases hc : contains l k
  · rw [insert, if_pos hc, lookup_update, if_neg h]
  · rw [insert, if_neg hc]
    exact lookup_append_singleton_of_ne l k j v h

theorem lookup_erase (l : List (String × α)) (k j : String) :
    lookup (erase l k) j = if j = k then none else lookup l j := by
  induction l with
  | nil => by_cases h : j = k <;> simp [erase, lookup, h]
  | cons p rest ih =>
    by_cases hp : p.1 = k
    · have hpj : p.1 = j → j = k := fun h => by rw [← h, hp]
      by_cases hjk : j = k
      · simpa [erase, lookup, List.filter_cons, hp, hjk] using ih
      · have hne : ¬ p.1 = j := fun h => hjk (hpj h)
        have hkj : ¬ k = j := fun h => hjk h.symm
        simpa [erase, lookup, List.filter_cons, hp, hjk, hkj, hne] using ih
    · by_cases hpj : p.1 = j
      · have hjk : ¬ j = k := fun h => hp (by rw [hpj, h])
        simp [erase, lookup, List.filter_cons, hp, hpj, hjk]
      · simpa [erase, lookup, List.filter_cons, hp, hpj] using ih

theorem contains_erase (l : List (String × α)) (k j : String) :
    contains (erase l k) j = if j = k then false else contains l j := by
  rw [contains_eq_isSome_lookup, contains_eq_isSome_lookup, lookup_erase]
  by_cases h : j = k <;> simp [h]

theorem contains_insert (l : List (String × α)) (k j : String) (v : α) :
    contains (insert l k v) j = (contains l j || j = k) := by
  rw [contains_eq_isSome_lookup, contains_eq_isSome_lookup]
  by_cases h : j = k
  · subst h; simp [lookup_insert_self]
  · simp [lookup_insert_of_ne l k j v h, h]

end PyDict

/-!
## Theorems about `State` (`src/state.py`)
-/

theorem apply_dispatch_order_tanks (s : State) (o : DispatchOrder) :
    (s.apply_dispatch_order o).tanks =
      PyDict.update (PyDict.update s.tanks o.source_tank_id (updateSourceTank o))
        o.target_tank_id (updateTargetTank o) := by
  unfold State.apply_dispatch_order
  dsimp only
  split <;> rfl

theorem apply_dispatch_order_pipelines (s : State) (o : DispatchOrder) :
    (s.apply_dispatch_order o).pipelines = s.pipelines := by
  unfold State.apply_dispatch_order
  dsimp only
  split <;> rfl

theorem apply_dispatch_order_total (s : State) (o : DispatchOrder) :
    (s.apply_dispatch_order o).total_dispatch_orders =
      s.total_dispatch_orders + 1 := by
  unfold State.apply_dispatch_order
  dsimp only
  split <;> rfl

theorem updateSourceTank_min_safe (o : DispatchOrder) (t : Tank) :
    (updateSourceTank o t).min_safe_level = t.min_safe_level := rfl

theorem updateTargetTank_min_safe (o : DispatchOrder) (t : Tank) :
    (updateTargetTank o t).min_safe_level = t.min_safe_level := rfl

theorem updateSourceTank_oil (o : DispatchOrder) (t : Tank) :
    (updateSourceTank o t).oil_type =
      if oilSwitchCond t.oil_type o.oil_type then some o.oil_type
      else t.oil_type := rfl

theorem updateTargetTank_oil (o : DispatchOrder) (t : Tank) :
    (updateTargetTank o t).oil_type = some o.oil_type := rfl

/-- The oil-switch test always fails on a state in which the source tank's
oil type has already been overwritten with the order's oil type: whatever
branch `updateSourceTank`/`updateTargetTank` took, the stored oil type
either equals `some o.oil_type` or already failed the switch condition. -/
theorem oil_switch_check_after_update (s : State) (o : DispatchOrder) :
    State.is_oil_switch_needed_in_state
      { s with
        tanks := PyDict.update
          (PyDict.update s.tanks o.source_tank_id (updateSourceTank o))
          o.target_tank_id (updateTargetTank o),
        total_dispatch_orders := s.total_dispatch_orders + 1 } o = false := by
  unfold State.is_oil_switch_needed_in_state
  simp only [PyDict.lookup_update]
  rcases hl : PyDict.lookup s.tanks o.source_tank_id with _ | t
  · by_cases he : o.source_tank_id = o.target_tank_id <;> simp [he]
  · by_cases he : o.source_tank_id = o.target_tank_id
    · simp only [he, if_pos rfl, Option.map_map, Option.map_some]
      simp [updateTargetTank, oilSwitchCond]
    · simp only [if_pos rfl, if_neg he, Option.map_some]
      show decide (oilSwitchCond (updateSourceTank o t).oil_type o.oil_type) = false
      rw [updateSourceTank_oil]
      by_cases hc : oilSwitchCond t.oil_type o.oil_type
      · rw [if_pos hc]
        simp [oilSwitchCond]
      · rw [if_neg hc]
        exact decide_eq_false hc

/-- `oil_switch_count` is never incremented by `apply_dispatch_order`: the
check `_is_oil_switch_needed_in_state` is evaluated on the *new* state, in
which the source tank's oil type was already overwritten. -/
theorem apply_dispatch_order_oil_switch_count (s : State) (o : DispatchOrder) :
    (s.apply_dispatch_order o).oil_switch_count = s.oil_switch_count := by
  unfold State.apply_dispatch_order
  dsimp only
  rw [if_neg]
  intro h
  rw [oil_switch_check_after_update s o] at h
  exact absurd h (by simp)

/-- C3: evaluation at a switch-requiring input. The source tank T1 holds
oil "A" and the order carries oil "B" — exactly the situation in which the
claim requires `oil_switch_count` to be incremented — yet the new state's
`oil_switch_count` is unchanged, because `_is_oil_switch_needed_in_state`
is consulted only after the source tank's oil type has been overwritten.
`total_dispatch_orders` is incremented as claimed. -/
theorem apply_oil_switch_never_counted :
    PyDict.lookup stateAB.tanks orderB.source_tank_id = some tankA
    ∧ tankA.oil_type = some "A"
    ∧ orderB.oil_type = "B"
    ∧ (stateAB.apply_dispatch_order orderB).oil_switch_count
        = stateAB.oil_switch_count
    ∧ (stateAB.apply_dispatch_order orderB).total_dispatch_orders
        = stateAB.total_dispatch_orders + 1 := by
  refine ⟨rfl, rfl, rfl, ?_, ?_⟩
  · exact apply_dispatch_order_oil_switch_count stateAB orderB
  · exact apply_dispatch_order_total stateAB orderB

/-- C4 counterexample: the order travels along pipeline P1 (a key of the
pipeline dict with an empty schedule), yet after `apply_dispatch_order`
P1's `occupancy_schedule` is still empty and its `current_oil` still unset:
no reservation was appended and no oil type was recorded, contrary to the
claim. -/
theorem apply_no_pipeline_reservation_cex :
    ¬ (∀ pid ∈ orderB.pipeline_path, ∀ p p' : Pipeline,
        PyDict.lookup stateAB.pipelines pid = some p →
        PyDict.lookup (stateAB.apply_dispatch_order orderB).pipelines pid = some p' →
        p'.occupancy_schedule.length = p.occupancy_schedule.length + 1
        ∧ p'.current_oil = some orderB.oil_type) := by
  intro h
  have hmem : "P1" ∈ orderB.pipeline_path := by decide
  have h1 : PyDict.lookup stateAB.pipelines "P1" = some pipeP1 := rfl
  have h2 : PyDict.lookup (stateAB.apply_dispatch_order orderB).pipelines "P1"
      = some pipeP1 := by
    rw [apply_dispatch_order_pipelines]; exact h1
  have := h "P1" hmem pipeP1 pipeP1 h1 h2
  exact absurd this.1 (by decide)

/-- C4 (amended): `apply_dispatch_order` leaves every pipeline snapshot
unchanged — the loop over the order's path binds local variables, but the
reservation append and the `current_oil` update are commented out in the
source. -/
theorem apply_pipelines_unchanged (s : State) (o : DispatchOrder) :
    (s.apply_dispatch_order o).pipelines = s.pipelines :=
  apply_dispatch_order_pipelines s o

/-- C5: if the source tank's inventory is at or above its minimum safe
level, it remains so after `apply_dispatch_order` — the decrement is
clamped at `min_safe_level` by the `max` on `state.py` line 80, and even
when the order's target coincides with the source the added volume cannot
push the inventory below the minimum. -/
theorem apply_source_min_safe_preserved (s : State) (o : DispatchOrder)
    (t : Tank) (hl : PyDict.lookup s.tanks o.source_tank_id = some t)
    (hs : t.min_safe_level ≤ t.inventory) :
    ∃ t', PyDict.lookup (s.apply_dispatch_order o).tanks o.source_tank_id = some t'
      ∧ t'.min_safe_level ≤ t'.inventory := by
  rw [apply_dispatch_order_tanks]
  rw [PyDict.lookup_update]
  by_cases he : o.source_tank_id = o.target_tank_id
  · rw [if_pos he, PyDict.lookup_update, if_pos rfl, hl]
    refine ⟨updateTargetTank o (updateSourceTank o t), rfl, ?_⟩
    show (updateTargetTank o (updateSourceTank o t)).min_safe_level ≤ _
    rw [updateTargetTank_min_safe, updateSourceTank_min_safe]
    show _ ≤ (updateSourceTank o t).inventory + o.required_volume
    have h1 : t.inventory - o.required_volume
        ≤ max (t.inventory - o.required_volume) t.min_safe_level :=
      le_max_left _ _
    have h2 : t.min_safe_level
        ≤ max (t.inventory - o.required_volume) t.min_safe_level :=
      le_max_right _ _
    show t.min_safe_level
        ≤ max (t.inventory - o.required_volume) t.min_safe_level
          + o.required_volume
    rcases le_total 0 o.required_volume with hv | hv
    · linarith
    · linarith
  · rw [if_neg he, PyDict.lookup_update, if_pos rfl, hl]
    refine ⟨updateSourceTank o t, rfl, ?_⟩
    rw [updateSourceTank_min_safe]
    exact le_max_right _ _

/-- C5 witness: at the concrete state `stateAB` and order `orderB`, T1's
inventory (500, minimum 100) stays at or above its minimum safe level. -/
theorem apply_source_min_safe_preserved_witness :
    ∃ t', PyDict.lookup (stateAB.apply_dispatch_order orderB).tanks
        orderB.source_tank_id = some t'
      ∧ t'.min_safe_level ≤ t'.inventory :=
  apply_source_min_safe_preserved stateAB orderB tankA rfl (by norm_num [tankA])

/-- On an order whose source and target tank ids are absent from the tank
dict, `apply_dispatch_order` (list-path restriction) leaves every tank and
pipeline snapshot and `oil_switch_count` unchanged while still
incrementing `total_dispatch_orders`. -/
theorem apply_unknown_tanks_total (s : State) (o : DispatchOrder)
    (hs : PyDict.contains s.tanks o.source_tank_id = false)
    (ht : PyDict.contains s.tanks o.target_tank_id = false) :
    (s.apply_dispatch_order o).tanks = s.tanks
    ∧ (s.apply_dispatch_order o).pipelines = s.pipelines
    ∧ (s.apply_dispatch_order o).oil_switch_count = s.oil_switch_count
    ∧ (s.apply_dispatch_order o).total_dispatch_orders
        = s.total_dispatch_orders + 1 := by
  refine ⟨?_, apply_dispatch_order_pipelines s o,
    apply_dispatch_order_oil_switch_count s o, apply_dispatch_order_total s o⟩
  rw [apply_dispatch_order_tanks]
  rw [PyDict.update_of_not_contains s.tanks _ _ hs]
  rw [PyDict.update_of_not_contains s.tanks _ _ ht]

/-- C10 counterexample: `orderUnknownNone` has unknown endpoint tanks TX
and TY — the claim's antecedent — yet `apply_dispatch_order` does not
return a new state: with the dataclass-default `pipeline_path = None`,
iterating the path (`state.py` line 121) raises `TypeError`. -/
theorem apply_unknown_tanks_none_path_cex :
    PyDict.contains stateAB.tanks orderUnknownNone.source_tank_id = false
    ∧ PyDict.contains stateAB.tanks orderUnknownNone.target_tank_id = false
    ∧ stateAB.apply_dispatch_order_py orderUnknownNone
        = .error "TypeError: NoneType object is not iterable" :=
  ⟨rfl, rfl, rfl⟩

/-- C10 (amended): for an order whose `pipeline_path` is an actual list
(as for every order the queue managers construct) and whose source and
target tank ids are not keys of the tank dict, `apply_dispatch_order`
returns — without raising — a new state in which every tank and pipeline
snapshot equals the corresponding input snapshot and `oil_switch_count` is
unchanged, yet `total_dispatch_orders` is still incremented by 1. -/
theorem apply_dispatch_order_py_unknown_tanks (s : State)
    (o : PyDispatchOrder) (path : List String)
    (hpath : o.pipeline_path = some path)
    (hs : PyDict.contains s.tanks o.source_tank_id = false)
    (ht : PyDict.contains s.tanks o.target_tank_id = false) :
    ∃ s', s.apply_dispatch_order_py o = .ok s'
      ∧ s'.tanks = s.tanks
      ∧ s'.pipelines = s.pipelines
      ∧ s'.oil_switch_count = s.oil_switch_count
      ∧ s'.total_dispatch_orders = s.total_dispatch_orders + 1 := by
  unfold State.apply_dispatch_order_py
  rw [hpath]
  exact ⟨_, rfl, apply_unknown_tanks_total s (o.withPath path) hs ht⟩

/-- C10 witness: concrete evaluation with the raw order `orderUnknownPy`
(path `["P1"]`, tank ids TX and TY absent from `stateAB`'s tank dict). -/
theorem apply_dispatch_order_py_unknown_tanks_witness :
    ∃ s', stateAB.apply_dispatch_order_py orderUnknownPy = .ok s'
      ∧ s'.tanks = stateAB.tanks
      ∧ s'.pipelines = stateAB.pipelines
      ∧ s'.oil_switch_count = stateAB.oil_switch_count
      ∧ s'.total_dispatch_orders = stateAB.total_dispatch_orders + 1 :=
  apply_dispatch_order_py_unknown_tanks stateAB orderUnknownPy ["P1"] rfl
    (by decide) (by decide)

/-- C7: evaluation of `get_available_tanks_for_oil_type`. In `stateAB`,
tank T1's oil type equals the requested "A", so T1 passes the oil-type
filter, reaches the four-argument `getattr` call and the function raises
`TypeError` — it does not return the claimed list of matching tank ids.
Only when every tank is filtered out (requesting oil "Z" here) does the
function return, with the empty list. -/
theorem get_available_tanks_raises :
    stateAB.get_available_tanks_for_oil_type "A" 0
      = .error "TypeError: getattr expected at most 3 arguments, got 4"
    ∧ stateAB.get_available_tanks_for_oil_type "Z" 0 = .ok [] := by
  constructor <;> rfl

namespace PyDict

theorem contains_update (l : List (String × α)) (k j : String) (f : α → α) :
    contains (update l k f) j = contains l j := by
  rw [contains_eq_isSome_lookup, contains_eq_isSome_lookup, lookup_update]
  by_cases h : j = k <;> simp [h]

end PyDict

namespace DispatchOrderQueueManager

theorem chainFrom_map_fst (s : State) (q : List DispatchOrder) :
    (chainFrom s q).map Prod.fst = q.map (fun o => o.dispatch_order_id) := by
  induction q generalizing s with
  | nil => simp [chainFrom]
  | cons o rest ih => simp [chainFrom, ih]

theorem chainFrom_append (s : State) (q : List DispatchOrder) (o : DispatchOrder) :
    chainFrom s (q ++ [o]) =
      chainFrom s q ++
        [(o.dispatch_order_id,
          (q.foldl State.apply_dispatch_order s).apply_dispatch_order o)] := by
  induction q generalizing s with
  | nil => simp [chainFrom]
  | cons p rest ih => simp [chainFrom, List.cons_append, ih]

theorem prev_of_chainFrom (s : State) (q : List DispatchOrder) :
    (match (chainFrom s q).getLast? with
     | some p => p.2
     | none => s) = q.foldl State.apply_dispatch_order s := by
  rcases List.eq_nil_or_concat q with rfl | ⟨q₀, o, rfl⟩
  · simp [chainFrom]
  · rw [List.concat_eq_append, chainFrom_append, List.getLast?_concat]
    simp [List.foldl_append]

theorem chainFrom_map_snd (s : State) (q : List DispatchOrder) :
    (chainFrom s q).map Prod.snd =
      (List.range q.length).map
        (fun i => (q.take (i+1)).foldl State.apply_dispatch_order s) := by
  induction q generalizing s with
  | nil => simp [chainFrom]
  | cons o rest ih =>
    simp only [chainFrom, List.map_cons, List.length_cons]
    rw [List.range_succ_eq_map]
    simp only [List.map_cons, List.map_map]
    congr 1
    rw [ih (s.apply_dispatch_order o)]
    apply List.map_congr_left
    intro i hi
    simp [List.take_succ_cons]

theorem chainInv_init (real : State) : ChainInv (init real) := rfl

/-- `move_order` either leaves the manager unchanged or ends in a full
chain recomputation. -/
theorem move_order_fst (m : DispatchOrderQueueManager)
    (dispatch_order_id : String) (np : Int) :
    (move_order m dispatch_order_id np).1 = m ∨
      ∃ m', (move_order m dispatch_order_id np).1
        = recalculate_state_chain m' := by
  unfold move_order
  dsimp only
  repeat' split
  all_goals first
    | exact Or.inl rfl
    | exact Or.inr ⟨_, rfl⟩

theorem chainInv_recalc (m : DispatchOrderQueueManager) :
    ChainInv (recalculate_state_chain m) := rfl

theorem chainInv_add (m : DispatchOrderQueueManager) (o : DispatchOrder)
    (h : ChainInv m) : ChainInv (add_order m o).1 := by
  unfold ChainInv at h ⊢
  show m.state_chain ++ _ = _
  rw [h]
  show _ = chainFrom m.real_system_state (m.queue ++ [{ o with status := "SCHEDULED" }])
  rw [chainFrom_append]
  congr 2
  rw [prev_of_chainFrom]

theorem chainInv_applyMutation (m : DispatchOrderQueueManager)
    (step : QueueMutation) (h : ChainInv m) : ChainInv (applyMutation m step) := by
  cases step with
  | add o => exact chainInv_add m o h
  | insertAt pos args now genId =>
    simpa [applyMutation, insert_order_at_position] using h
  | remove dispatch_order_id =>
    dsimp [applyMutation, remove_order]
    split
    · exact h
    · exact chainInv_recalc _
  | move dispatch_order_id np =>
    show ChainInv (move_order m dispatch_order_id np).1
    rcases move_order_fst m dispatch_order_id np with he | ⟨m', he⟩
    · rw [he]; exact h
    · rw [he]; exact chainInv_recalc m'
  | complete dispatch_order_id =>
    dsimp [applyMutation, complete_order]
    split
    · exact h
    · split
      · exact h
      · split
        · dsimp [update_real_system_state_with_order]
          split
          · exact h
          · exact chainInv_recalc _
        · exact h
  | cancel dispatch_order_id =>
    dsimp [applyMutation, cancel_order]
    split
    · exact h
    · dsimp [remove_order]
      rw [PyDict.contains_update]
      split
      · rename_i hcontains hfalse
        rw [Bool.not_eq_false] at hcontains
        rw [hcontains] at hfalse
        exact absurd hfalse (by simp)
      · exact chainInv_recalc _

theorem chainInv_applyMutations (muts : List QueueMutation)
    (m : DispatchOrderQueueManager) (h : ChainInv m) :
    ChainInv (applyMutations m muts) := by
  induction muts generalizing m with
  | nil => exact h
  | cons step rest ih =>
    exact ih (applyMutation m step) (chainInv_applyMutation m step h)

/-- C1: after any sequence of queue mutations starting from a freshly
initialized manager, the stored `state_chain` lists exactly the queued
order ids in queue order, and its `i`-th state is the left fold of
`apply_dispatch_order` over the first `i+1` queued orders starting from
the current real system state — the incrementally maintained chain always
matches a full replay from scratch. -/
theorem state_chain_eq_replay (real : State) (muts : List QueueMutation) :
    ((applyMutations (init real) muts).state_chain.map Prod.fst
        = queueIds (applyMutations (init real) muts))
    ∧ ((applyMutations (init real) muts).state_chain.map Prod.snd
        = (List.range (applyMutations (init real) muts).queue.length).map
            (fun i => ((applyMutations (init real) muts).queue.take (i+1)).foldl
              State.apply_dispatch_order
              (applyMutations (init real) muts).real_system_state)) := by
  have h : ChainInv (applyMutations (init real) muts) :=
    chainInv_applyMutations muts (init real) (chainInv_init real)
  unfold ChainInv at h
  constructor
  · rw [h, chainFrom_map_fst]; rfl
  · rw [h, chainFrom_map_snd]

theorem map_id_filter (q : List DispatchOrder) (dispatch_order_id : String) :
    (q.filter (fun o => ¬ o.dispatch_order_id = dispatch_order_id)).map
        (fun o => o.dispatch_order_id)
      = (q.map (fun o => o.dispatch_order_id)).filter
          (fun s => ¬ s = dispatch_order_id) := by
  induction q with
  | nil => rfl
  | cons o rest ih =>
    simp only [decide_not] at ih
    by_cases h : o.dispatch_order_id = dispatch_order_id <;>
      simp [List.filter_cons, decide_not, h, ih]

/-- Dropping one id from both the queue and the registry preserves
registry consistency (the common core of `remove_order` and
`update_real_system_state_with_order`). -/
theorem regInvQR_filter_erase (q : List DispatchOrder)
    (reg : List (String × DispatchOrder)) (dispatch_order_id : String)
    (h : RegInvQR q reg) :
    RegInvQR (q.filter (fun o => ¬ o.dispatch_order_id = dispatch_order_id))
      (PyDict.erase reg dispatch_order_id) := by
  obtain ⟨hperm, hnodup, hval⟩ := h
  refine ⟨?_, ?_, ?_⟩
  · rw [PyDict.keys_erase, map_id_filter]
    exact hperm.filter _
  · rw [map_id_filter]
    exact hnodup.filter _
  · intro o ho
    rw [List.mem_filter] at ho
    have hne : ¬ o.dispatch_order_id = dispatch_order_id := by
      simpa using ho.2
    rw [PyDict.lookup_erase, if_neg hne]
    exact hval o ho.1

/-- Appending a freshly-identified order to the queue and registering it
preserves registry consistency (the core of `add_order`). -/
theorem regInvQR_append_insert (q : List DispatchOrder)
    (reg : List (String × DispatchOrder)) (o : DispatchOrder)
    (h : RegInvQR q reg)
    (hfresh : PyDict.contains reg o.dispatch_order_id = false) :
    RegInvQR (q ++ [o]) (PyDict.insert reg o.dispatch_order_id o) := by
  obtain ⟨hperm, hnodup, hval⟩ := h
  have hnotkeys : o.dispatch_order_id ∉ PyDict.keys reg := by
    intro hmem
    rw [← PyDict.contains_iff_mem_keys, hfresh] at hmem
    cases hmem
  have hnotids : o.dispatch_order_id ∉ q.map (fun p => p.dispatch_order_id) :=
    fun hmem => hnotkeys (hperm.mem_iff.mpr hmem)
  refine ⟨?_, ?_, ?_⟩
  · rw [PyDict.keys_insert, hfresh]
    simp only [Bool.false_eq_true, if_false, List.map_append, List.map_cons,
      List.map_nil]
    exact hperm.append_right [o.dispatch_order_id]
  · rw [List.map_append]
    rw [List.nodup_append]
    refine ⟨hnodup, by simp, ?_⟩
    intro s hs
    simp only [List.map_cons, List.map_nil, List.mem_singleton]
    intro heq
    rw [heq] at hs
    exact hnotids hs
  · intro p hp
    rw [List.mem_append] at hp
    rcases hp with hp | hp
    · have hne : ¬ p.dispatch_order_id = o.dispatch_order_id := by
        intro heq
        exact hnotids (heq ▸ List.mem_map_of_mem (fun x => x.dispatch_order_id) hp)
      rw [PyDict.lookup_insert_of_ne _ _ _ _ hne]
      exact hval p hp
    · rw [List.mem_singleton] at hp
      subst hp
      exact PyDict.lookup_insert_self reg p.dispatch_order_id p

/-- Permuting the queue preserves registry consistency (the core of
`move_order`). -/
theorem regInvQR_perm (q q' : List DispatchOrder)
    (reg : List (String × DispatchOrder)) (h : RegInvQR q reg)
    (hp : q.Perm q') : RegInvQR q' reg := by
  obtain ⟨hperm, hnodup, hval⟩ := h
  refine ⟨hperm.trans (hp.map _), ((hp.map _).nodup_iff).mp hnodup, ?_⟩
  intro o ho
  exact hval o (hp.mem_iff.mpr ho)

/-- Mutating the registered order (and, through object aliasing, the queue
entries carrying its id) with an id-preserving function keeps registry
consistency (the core of `cancel_order`'s status update). -/
theorem regInvQR_map_update (q : List DispatchOrder)
    (reg : List (String × DispatchOrder)) (dispatch_order_id : String)
    (f : DispatchOrder → DispatchOrder)
    (hid : ∀ o, (f o).dispatch_order_id = o.dispatch_order_id)
    (h : RegInvQR q reg) :
    RegInvQR
      (q.map (fun o => if o.dispatch_order_id = dispatch_order_id then f o else o))
      (PyDict.update reg dispatch_order_id f) := by
  obtain ⟨hperm, hnodup, hval⟩ := h
  have hids : (q.map (fun o =>
      if o.dispatch_order_id = dispatch_order_id then f o else o)).map
        (fun o => o.dispatch_order_id)
      = q.map (fun o => o.dispatch_order_id) := by
    rw [List.map_map]
    apply List.map_congr_left
    intro o _
    by_cases ho : o.dispatch_order_id = dispatch_order_id <;>
      simp [ho, hid]
  refine ⟨?_, ?_, ?_⟩
  · rw [PyDict.keys_update, hids]
    exact hperm
  · rw [hids]
    exact hnodup
  · intro p hp
    rw [List.mem_map] at hp
    obtain ⟨o, ho, rfl⟩ := hp
    by_cases hc : o.dispatch_order_id = dispatch_order_id
    · rw [if_pos hc, hid o, PyDict.lookup_update, hc, if_pos rfl, ← hc,
        hval o ho]
      rfl
    · rw [if_neg hc, PyDict.lookup_update, if_neg hc]
      exact hval o ho

theorem findIdx?_some_lt_aux (p : DispatchOrder → Bool) (l : List DispatchOrder) :
    ∀ s i, List.findIdx? p l s = some i → i < s + l.length := by
  induction l with
  | nil =>
    intro s i h
    simp [List.findIdx?] at h
  | cons a rest ih =>
    intro s i h
    simp only [List.findIdx?] at h
    by_cases hp : p a
    · rw [if_pos hp] at h
      cases h
      simp
    · rw [if_neg hp] at h
      have := ih (s + 1) i h
      simp only [List.length_cons]
      omega

theorem findIdx?_some_lt (p : DispatchOrder → Bool) (l : List DispatchOrder)
    (i : ℕ) (h : l.findIdx? p = some i) : i < l.length := by
  have := findIdx?_some_lt_aux p l 0 i h
  omega

theorem insert_take_drop_perm (l : List DispatchOrder) (n : ℕ) (a : DispatchOrder) :
    (l.take n ++ a :: l.drop n).Perm (a :: l) := by
  have h1 : (l.take n ++ a :: l.drop n).Perm (a :: (l.take n ++ l.drop n)) :=
    List.perm_middle
  rw [List.take_append_drop] at h1
  exact h1

theorem pop_push_perm (q : List DispatchOrder) (cur : ℕ) (hcur : cur < q.length)
    (n : ℕ) :
    (((q.take cur ++ q.drop (cur + 1)).take n
        ++ q.getD cur default :: (q.take cur ++ q.drop (cur + 1)).drop n)).Perm
      q := by
  have h1 := insert_take_drop_perm (q.take cur ++ q.drop (cur + 1)) n
    (q.getD cur default)
  have h2 : q.take cur ++ q.getD cur default :: q.drop (cur + 1) = q := by
    rw [List.getD_eq_get q default hcur]
    rw [← List.drop_eq_get_cons hcur]
    exact List.take_append_drop cur q
  have h3 : (q.getD cur default :: (q.take cur ++ q.drop (cur + 1))).Perm q := by
    have := (@List.perm_middle _ (q.getD cur default) (q.take cur)
      (q.drop (cur + 1))).symm
    rw [h2] at this
    exact this
  exact h1.trans h3

/-- `move_order` only permutes the queue and never touches the registry. -/
theorem move_order_queue_perm (m : DispatchOrderQueueManager)
    (dispatch_order_id : String) (np : Int) :
    (move_order m dispatch_order_id np).1.queue.Perm m.queue
    ∧ (move_order m dispatch_order_id np).1.order_registry
        = m.order_registry := by
  unfold move_order
  dsimp only
  split
  · exact ⟨List.Perm.refl _, rfl⟩
  · rcases hfind : m.queue.findIdx?
        (fun o => o.dispatch_order_id = dispatch_order_id) with _ | cur
    · rw [hfind]
      exact ⟨List.Perm.refl _, rfl⟩
    · rw [hfind]
      have hlt : cur < m.queue.length := findIdx?_some_lt _ _ _ hfind
      have hperm : ∀ x : ℕ,
          (((m.queue.take cur ++ m.queue.drop (cur + 1)).take x
            ++ m.queue.getD cur default ::
              (m.queue.take cur ++ m.queue.drop (cur + 1)).drop x)).Perm
            m.queue := fun x => pop_push_perm m.queue cur hlt x
      dsimp only
      repeat' split
      all_goals first
        | exact ⟨List.Perm.refl _, rfl⟩
        | exact ⟨hperm _, rfl⟩

theorem regInv_init (real : State) : RegInv (init real) :=
  ⟨List.Perm.nil, List.nodup_nil, fun o ho => absurd ho (List.not_mem_nil o)⟩

theorem regInv_add (m : DispatchOrderQueueManager) (o : DispatchOrder)
    (h : RegInv m)
    (hfresh : PyDict.contains m.order_registry o.dispatch_order_id = false) :
    RegInv (add_order m o).1 :=
  regInvQR_append_insert m.queue m.order_registry
    { o with status := "SCHEDULED" } h hfresh

theorem regInv_move (m : DispatchOrderQueueManager)
    (dispatch_order_id : String) (np : Int) (h : RegInv m) :
    RegInv (move_order m dispatch_order_id np).1 := by
  obtain ⟨hq, hr⟩ := move_order_queue_perm m dispatch_order_id np
  unfold RegInv
  rw [hr]
  exact regInvQR_perm m.queue _ _ h hq.symm

theorem regInv_applyMutation (m : DispatchOrderQueueManager)
    (step : QueueMutation) (h : RegInv m)
    (hok : (match step with
            | .add o => !PyDict.contains m.order_registry o.dispatch_order_id
            | _ => true) = true) :
    RegInv (applyMutation m step) := by
  cases step with
  | add o =>
    exact regInv_add m o h (by simpa using hok)
  | insertAt pos args now genId =>
    simpa [applyMutation, insert_order_at_position] using h
  | remove dispatch_order_id =>
    dsimp [applyMutation, remove_order]
    split
    · exact h
    · exact regInvQR_filter_erase _ _ _ h
  | move dispatch_order_id np =>
    exact regInv_move m dispatch_order_id np h
  | complete dispatch_order_id =>
    dsimp [applyMutation, complete_order]
    split
    · exact h
    · split
      · exact h
      · split
        · dsimp [update_real_system_state_with_order]
          split
          · exact h
          · exact regInvQR_filter_erase _ _ _ h
        · exact h
  | cancel dispatch_order_id =>
    dsimp [applyMutation, cancel_order]
    split
    · exact h
    · dsimp [remove_order]
      rw [PyDict.contains_update]
      split
      · rename_i hcontains hfalse
        rw [Bool.not_eq_false] at hcontains
        rw [hcontains] at hfalse
        exact absurd hfalse (by simp)
      · exact regInvQR_filter_erase _ _ _
          (regInvQR_map_update m.queue m.order_registry dispatch_order_id
            (fun q => { q with status := "CANCELLED" }) (fun o => rfl) h)

theorem regInv_applyMutations (muts : List QueueMutation)
    (m : DispatchOrderQueueManager) (h : RegInv m)
    (hfresh : freshAdds m muts = true) :
    RegInv (applyMutations m muts) := by
  induction muts generalizing m with
  | nil => exact h
  | cons step rest ih =>
    simp only [freshAdds, Bool.and_eq_true] at hfresh
    exact ih (applyMutation m step)
      (regInv_applyMutation m step h hfresh.1) hfresh.2

/-- C6 counterexample: `add_order` registers the caller's order under the
caller's id, so adding the same order twice puts its id in the queue twice
— the claimed no-duplicates invariant fails for this mutation sequence. -/
theorem registry_queue_dup_cex :
    queueIds (applyMutations (init stateAB)
        [QueueMutation.add orderB, QueueMutation.add orderB]) = ["O1", "O1"]
    ∧ ¬ (queueIds (applyMutations (init stateAB)
        [QueueMutation.add orderB, QueueMutation.add orderB])).Nodup := by
  have h : queueIds (applyMutations (init stateAB)
      [QueueMutation.add orderB, QueueMutation.add orderB]) = ["O1", "O1"] := rfl
  refine ⟨h, ?_⟩
  rw [h]
  decide

/-- C6 (amended): provided every `add_order` in the sequence supplies an
id that is not already registered (as the generated ids are), the registry
key set always equals the set of queued ids — no orphans — and the queue
has no duplicate ids. -/
theorem registry_matches_queue_of_fresh (real : State)
    (muts : List QueueMutation)
    (hfresh : freshAdds (init real) muts = true) :
    (PyDict.keys (applyMutations (init real) muts).order_registry).Perm
      (queueIds (applyMutations (init real) muts))
    ∧ (queueIds (applyMutations (init real) muts)).Nodup := by
  have h := regInv_applyMutations muts (init real) (regInv_init real) hfresh
  exact ⟨h.1, h.2.1⟩

/-- C6 witness: a concrete add-then-complete sequence with fresh ids. -/
theorem registry_matches_queue_of_fresh_witness :
    (PyDict.keys (applyMutations (init stateAB)
        [QueueMutation.add orderB, QueueMutation.complete "O1"]).order_registry).Perm
      (queueIds (applyMutations (init stateAB)
        [QueueMutation.add orderB, QueueMutation.complete "O1"]))
    ∧ (queueIds (applyMutations (init stateAB)
        [QueueMutation.add orderB, QueueMutation.complete "O1"])).Nodup :=
  registry_matches_queue_of_fresh stateAB
    [QueueMutation.add orderB, QueueMutation.complete "O1"] (by decide)

theorem contains_foldl_insert (chain : List (String × State))
    (d : List (String × State)) (k : String) :
    PyDict.contains (chain.foldl (fun d p => PyDict.insert d p.1 p.2) d) k
      = (PyDict.contains d k || chain.any (fun p => p.1 = k)) := by
  induction chain generalizing d with
  | nil => simp
  | cons p rest ih =>
    rw [List.foldl_cons, ih, PyDict.contains_insert, List.any_cons]
    by_cases h : p.1 = k
    · simp [h]
    · have h' : ¬ k = p.1 := fun e => h e.symm
      simp [h, h']

theorem chainFrom_any_fst (s : State) (q : List DispatchOrder) (k : String) :
    (chainFrom s q).any (fun p => p.1 = k)
      = q.any (fun o => o.dispatch_order_id = k) := by
  induction q generalizing s with
  | nil => rfl
  | cons o rest ih => simp [chainFrom, List.any_cons, ih]

theorem filter_ne_head_eq_tail (q : List DispatchOrder) (o : DispatchOrder)
    (hh : q.head? = some o)
    (hnodup : (q.map (fun p => p.dispatch_order_id)).Nodup) :
    q.filter (fun p => ¬ p.dispatch_order_id = o.dispatch_order_id)
      = q.tail := by
  cases q with
  | nil => cases hh
  | cons a rest =>
    have ha : a = o := by simpa using hh
    subst ha
    simp only [List.map_cons, List.nodup_cons] at hnodup
    rw [List.filter_cons]
    have hcond : (decide ¬ a.dispatch_order_id = a.dispatch_order_id)
        = false := by simp
    rw [hcond]
    simp only [Bool.false_eq_true, if_false, List.tail_cons]
    rw [List.filter_eq_self]
    intro p hp
    have hne : ¬ p.dispatch_order_id = a.dispatch_order_id := by
      intro he
      exact hnodup.1
        (he ▸ List.mem_map_of_mem (fun p => p.dispatch_order_id) hp)
    simp [hne]

theorem any_tail_eq_false_of_head (q : List DispatchOrder)
    (a : DispatchOrder) (hh : q.head? = some a)
    (hnodup : (q.map (fun p => p.dispatch_order_id)).Nodup) :
    q.tail.any (fun o => o.dispatch_order_id = a.dispatch_order_id)
      = false := by
  cases q with
  | nil => cases hh
  | cons b rest =>
    have hb : b = a := by simpa using hh
    subst hb
    simp only [List.map_cons, List.nodup_cons] at hnodup
    simp only [List.tail_cons]
    rw [List.any_eq_false]
    intro p hp
    simp only [decide_eq_true_eq]
    intro he
    exact hnodup.1
      (he ▸ List.mem_map_of_mem (fun p => p.dispatch_order_id) hp)

/-- C2: under registry consistency (which holds for every reachable
manager), `complete_order` succeeds exactly when the given id is the id of
the current queue head; on failure the manager is completely unchanged; on
success the head order is applied to the real state (replacing it), the
queue shrinks to its tail and the id disappears from both the registry and
the virtual-state map. -/
theorem complete_order_spec (m : DispatchOrderQueueManager)
    (dispatch_order_id : String) (hInv : RegInv m) :
    ((complete_order m dispatch_order_id).2 = true
        ↔ ∃ o, m.queue.head? = some o
            ∧ o.dispatch_order_id = dispatch_order_id)
    ∧ ((complete_order m dispatch_order_id).2 = false
        → (complete_order m dispatch_order_id).1 = m)
    ∧ (∀ o, m.queue.head? = some o →
        o.dispatch_order_id = dispatch_order_id →
        (complete_order m dispatch_order_id).1.real_system_state
            = m.real_system_state.apply_dispatch_order o
        ∧ (complete_order m dispatch_order_id).1.queue = m.queue.tail
        ∧ PyDict.contains (complete_order m dispatch_order_id).1.order_registry
            dispatch_order_id = false
        ∧ PyDict.contains
            (complete_order m dispatch_order_id).1.virtual_state_map
            dispatch_order_id = false) := by
  obtain ⟨hperm, hnodup, hval⟩ := hInv
  by_cases hc : PyDict.contains m.order_registry dispatch_order_id = false
  · have hno : ¬ ∃ o, m.queue.head? = some o
        ∧ o.dispatch_order_id = dispatch_order_id := by
      rintro ⟨o, ho, hid⟩
      have hmem : o ∈ m.queue := by
        cases hq : m.queue with
        | nil => rw [hq] at ho; cases ho
        | cons a rest =>
          rw [hq] at ho
          have hao : a = o := by simpa using ho
          rw [← hao]
          exact List.mem_cons_self a rest
      have hkey : dispatch_order_id ∈ PyDict.keys m.order_registry :=
        hperm.mem_iff.mpr
          (hid ▸ List.mem_map_of_mem (fun p => p.dispatch_order_id) hmem)
      rw [← PyDict.contains_iff_mem_keys, hc] at hkey
      cases hkey
    have hres : complete_order m dispatch_order_id = (m, false) := by
      unfold complete_order
      rw [if_pos hc]
    rw [hres]
    refine ⟨?_, fun _ => rfl, ?_⟩
    · simp only [Bool.false_eq_true, false_iff]
      exact hno
    · intro o ho hid
      exact absurd ⟨o, ho, hid⟩ hno
  · rcases hhead : m.queue.head? with _ | a
    · -- empty queue: fail
      have hres : complete_order m dispatch_order_id = (m, false) := by
        unfold complete_order
        rw [if_neg hc, hhead]
      rw [hres]
      refine ⟨?_, fun _ => rfl, ?_⟩
      · simp only [Bool.false_eq_true, false_iff]
        rintro ⟨o, ho, _⟩
        cases ho
      · intro o ho
        cases ho
    · by_cases hid : a.dispatch_order_id = dispatch_order_id
      · -- success branch
        have hmema : a ∈ m.queue := by
          cases hq : m.queue with
          | nil => rw [hq] at hhead; cases hhead
          | cons b rest =>
            rw [hq] at hhead
            have hba : b = a := by simpa using hhead
            rw [← hba]
            exact List.mem_cons_self b rest
        have hlook : PyDict.lookup m.order_registry dispatch_order_id
            = some a := by
          rw [← hid]
          exact hval a hmema
        have hres : complete_order m dispatch_order_id
            = (update_real_system_state_with_order m dispatch_order_id,
               true) := by
          unfold complete_order
          rw [if_neg hc, hhead]
          dsimp only
          rw [if_pos hid]
        have hupd : update_real_system_state_with_order m dispatch_order_id
            = recalculate_state_chain { m with
                real_system_state :=
                  m.real_system_state.apply_dispatch_order a,
                order_registry :=
                  PyDict.erase m.order_registry dispatch_order_id,
                virtual_state_map :=
                  PyDict.erase m.virtual_state_map dispatch_order_id,
                queue := m.queue.filter
                  (fun q => ¬ q.dispatch_order_id = dispatch_order_id) } := by
          unfold update_real_system_state_with_order
          rw [hlook]
        have hqueue : m.queue.filter
            (fun q => ¬ q.dispatch_order_id = dispatch_order_id)
            = m.queue.tail := by
          have hf := filter_ne_head_eq_tail m.queue a hhead hnodup
          rw [hid] at hf
          exact hf
        refine ⟨?_, ?_, ?_⟩
        · rw [hres]
          simp only [true_iff]
          exact ⟨a, rfl, hid⟩
        · rw [hres]
          intro hfalse
          cases hfalse
        · intro o ho hoid
          have hoa : a = o := Option.some.inj ho
          subst hoa
          rw [hres, hupd]
          refine ⟨rfl, ?_, ?_, ?_⟩
          · show m.queue.filter _ = m.queue.tail
            exact hqueue
          · show PyDict.contains
              (PyDict.erase m.order_registry dispatch_order_id)
              dispatch_order_id = false
            rw [PyDict.contains_erase, if_pos rfl]
          · show PyDict.contains
              ((chainFrom (m.real_system_state.apply_dispatch_order a)
                (m.queue.filter
                  (fun q => ¬ q.dispatch_order_id = dispatch_order_id))).foldl
                (fun d p => PyDict.insert d p.1 p.2) [])
              dispatch_order_id = false
            rw [contains_foldl_insert, chainFrom_any_fst, hqueue]
            have hany := any_tail_eq_false_of_head m.queue a hhead hnodup
            rw [hid] at hany
            rw [hany]
            simp [PyDict.contains]
      · -- head exists but id mismatch: fail
        have hres : complete_order m dispatch_order_id = (m, false) := by
          unfold complete_order
          rw [if_neg hc, hhead]
          dsimp only
          rw [if_neg hid]
        rw [hres]
        refine ⟨?_, fun _ => rfl, ?_⟩
        · simp only [Bool.false_eq_true, false_iff]
          rintro ⟨o, ho, hoid⟩
          have hao : a = o := Option.some.inj ho
          rw [← hao] at hoid
          exact hid hoid
        · intro o ho hoid
          have hao : a = o := Option.some.inj ho
          rw [← hao] at hoid
          exact absurd hoid hid

/-- C2 witness: on the reachable manager obtained by adding `orderB`
(whose registry consistency is checked by `decide`), completing "O1"
succeeds, by `complete_order_spec` applied at that concrete manager. -/
theorem complete_order_spec_witness :
    (complete_order (applyMutations (init stateAB)
        [QueueMutation.add orderB]) "O1").2 = true :=
  (complete_order_spec (applyMutations (init stateAB)
      [QueueMutation.add orderB]) "O1" (by decide)).1.mpr
    ⟨{ orderB with status := "SCHEDULED" }, rfl, rfl⟩

end DispatchOrderQueueManager

namespace framework

theorem get_all_paths_ne_nil (source target : String) :
    ∀ path ∈ get_all_paths source target, path ≠ [] := by
  intro path h
  unfold get_all_paths at h
  split_ifs at h <;>
    (simp only [List.mem_cons, List.mem_singleton, List.not_mem_nil,
      or_false] at h) <;>
    rcases h with rfl | rfl <;> simp

theorem check_capacity_head_lt (pipes : List (String × PipelineState))
    (quantity start_time : ℚ) (pid : String) (ptail : List String)
    (p : PipelineState) (hp : PyDict.lookup pipes pid = some p)
    (hlt : p.capacity < quantity) :
    check_capacity pipes quantity start_time (pid :: ptail) = .ok false := by
  unfold check_capacity
  dsimp only
  unfold check_capacity_go
  rw [hp]
  dsimp only
  rw [if_pos hlt]

theorem collect_scored_all_undersized (pipes : List (String × PipelineState))
    (oil_type : String) (quantity start_time : ℚ)
    (ps : List (List String))
    (hne : ∀ path ∈ ps, path ≠ [])
    (hcap : ∀ path ∈ ps, ∀ pid ∈ path,
      ∃ p, PyDict.lookup pipes pid = some p ∧ p.capacity < quantity) :
    collect_scored pipes oil_type quantity start_time ps = .ok [] := by
  induction ps with
  | nil => rfl
  | cons path rest ih =>
    have hpne : path ≠ [] := hne path (List.mem_cons_self path rest)
    rcases path with _ | ⟨pid, ptail⟩
    · exact absurd rfl hpne
    · obtain ⟨p, hp, hlt⟩ := hcap (pid :: ptail)
        (List.mem_cons_self _ rest) pid (List.mem_cons_self pid ptail)
      unfold collect_scored
      rw [check_capacity_head_lt pipes quantity start_time pid ptail p hp hlt]
      exact ih (fun q hq => hne q (List.mem_cons_of_mem _ hq))
        (fun q hq => hcap q (List.mem_cons_of_mem _ hq))

theorem collect_scored_mem (pipes : List (String × PipelineState))
    (oil_type : String) (quantity start_time : ℚ) :
    ∀ (ps : List (List String)) (l : List (List String × ℚ)),
      collect_scored pipes oil_type quantity start_time ps = .ok l →
      ∀ x ∈ l, x.1 ∈ ps ∧ check_capacity pipes quantity start_time x.1 = .ok true := by
  intro ps
  induction ps with
  | nil =>
    intro l h x hx
    unfold collect_scored at h
    cases h
    cases hx
  | cons path rest ih =>
    intro l h x hx
    unfold collect_scored at h
    rcases hc : check_capacity pipes quantity start_time path with _ | b
    · rw [hc] at h; cases h
    · rw [hc] at h
      cases b with
      | false =>
        dsimp only at h
        have := ih l h x hx
        exact ⟨List.mem_cons_of_mem _ this.1, this.2⟩
      | true =>
        dsimp only at h
        rcases hs : calculate_score pipes oil_type quantity path with _ | sc
        · rw [hs] at h; cases h
        · rw [hs] at h
          rcases ht : collect_scored pipes oil_type quantity start_time rest
              with _ | tail
          · rw [ht] at h; cases h
          · rw [ht] at h
            cases h
            rcases List.mem_cons.mp hx with rfl | hx
            · exact ⟨List.mem_cons_self _ _, hc⟩
            · have := ih tail ht x hx
              exact ⟨List.mem_cons_of_mem _ this.1, this.2⟩

theorem pyMaxBySnd_mem (b : List String × ℚ) (l : List (List String × ℚ)) :
    pyMaxBySnd b l ∈ b :: l := by
  induction l generalizing b with
  | nil => exact List.mem_singleton.mpr rfl
  | cons x rest ih =>
    unfold pyMaxBySnd
    have h := ih (if b.2 < x.2 then x else b)
    rcases List.mem_cons.mp h with he | hmem
    · rw [he]
      by_cases hb : b.2 < x.2
      · rw [if_pos hb]
        exact List.mem_cons_of_mem _ (List.mem_cons_self x rest)
      · rw [if_neg hb]
        exact List.mem_cons_self b (x :: rest)
    · exact List.mem_cons_of_mem _ (List.mem_cons_of_mem _ hmem)

/-- C8: (i) when the requested quantity exceeds the capacity of every
pipeline segment on every candidate route, `find_feasible_path` returns
`.ok none` — "no path", not an exception; (ii) any returned route passed
`_check_capacity`, i.e. candidate routes with an undersized segment or an
overlapping reservation are excluded from selection. -/
theorem find_feasible_path_spec (pipes : List (String × PipelineState))
    (source target oil_type : String) (quantity start_time : ℚ) :
    ((∀ path ∈ get_all_paths source target, ∀ pid ∈ path,
        ∃ p, PyDict.lookup pipes pid = some p ∧ p.capacity < quantity) →
      find_feasible_path source target oil_type quantity start_time pipes
        = .ok none)
    ∧ (∀ path sc,
        find_feasible_path source target oil_type quantity start_time pipes
          = .ok (some (path, sc)) →
        path ∈ get_all_paths source target
        ∧ check_capacity pipes quantity start_time path = .ok true) := by
  constructor
  · intro hcap
    unfold find_feasible_path
    dsimp only
    split
    · rfl
    · rw [collect_scored_all_undersized pipes oil_type quantity start_time
        (get_all_paths source target) (get_all_paths_ne_nil source target)
        hcap]
  · intro path sc h
    unfold find_feasible_path at h
    dsimp only at h
    split at h
    · cases h
    · rcases hcol : collect_scored pipes oil_type quantity start_time
          (get_all_paths source target) with _ | l
      · rw [hcol] at h; cases h
      · rw [hcol] at h
        cases l with
        | nil => cases h
        | cons x rest =>
          dsimp only at h
          have hx : pyMaxBySnd x rest = (path, sc) := by
            injection h with h1
            injection h1 with h2
          have hmem := pyMaxBySnd_mem x rest
          rw [hx] at hmem
          have := collect_scored_mem pipes oil_type quantity start_time
            (get_all_paths source target) (x :: rest) hcol (path, sc) hmem
          exact this

/-- C8 witness: a 100-unit request over routes whose segments all have
capacity 5 yields "no path", by `find_feasible_path_spec` at this input. -/
theorem find_feasible_path_spec_witness :
    find_feasible_path "tank1" "tank2" "A" 100 0 smallPipes = .ok none :=
  (find_feasible_path_spec smallPipes "tank1" "tank2" "A" 100 0).1
    (by
      intro path hpath pid hpid
      fin_cases hpath <;> fin_cases hpid <;>
        exact ⟨_, rfl, by norm_num⟩)

end framework

namespace legacy

/-- The reference-not-found `ValueError` is raised exactly when the
reference id is unregistered or not currently queued (first half of the
claimed behavior, which the code does satisfy). -/
theorem insert_order_before_value_error_iff (m : Manager)
    (reference_order_id : String) (args : InsertOrderArgs) (now : Int)
    (genId : String) :
    (∃ msg, insert_order_before m reference_order_id args now genId
        = .error (.valueError msg))
      ↔ (PyDict.contains m.order_registry reference_order_id = false
         ∨ m.queue.findIdx?
             (fun o => o.dispatch_order_id = reference_order_id) = none) := by
  unfold insert_order_before
  by_cases hc : PyDict.contains m.order_registry reference_order_id = false
  · rw [if_pos hc]
    exact ⟨fun _ => Or.inl hc, fun _ => ⟨_, rfl⟩⟩
  · rw [if_neg hc]
    rcases hf : m.queue.findIdx?
        (fun o => o.dispatch_order_id = reference_order_id) with _ | pos
    · rw [hf]
      exact ⟨fun _ => Or.inr rfl, fun _ => ⟨_, rfl⟩⟩
    · rw [hf]
      unfold insert_order_at_position
      constructor
      · rintro ⟨msg, hmsg⟩
        cases hmsg
      · rintro (h | h)
        · exact absurd h hc
        · cases h

/-- C9: evaluation at concrete inputs. An unknown reference id "ZZ"
raises the reference-not-found `ValueError` as claimed; but with the valid
reference "O1" (registered and at queue position 0), both
`insert_order_before` and `insert_order_after` raise `TypeError` from the
`DispatchOrder` constructor inside `insert_order_at_position` instead of
inserting the new order and returning its id — `data_class.DispatchOrder`
accepts no `priority`/`notes` keywords. -/
theorem insert_order_before_after_eval :
    PyDict.contains lmgr.order_registry "ZZ" = false
    ∧ PyDict.contains lmgr.order_registry "O1" = true
    ∧ lmgr.queue.findIdx? (fun o => o.dispatch_order_id = "O1") = some 0
    ∧ insert_order_before lmgr "ZZ" largs 0 "NEW1"
        = .error (.valueError "参考订单 ZZ 不存在")
    ∧ insert_order_before lmgr "O1" largs 0 "NEW1"
        = .error (.typeError
            "__init__() got an unexpected keyword argument priority")
    ∧ insert_order_after lmgr "O1" largs 0 "NEW1"
        = .error (.typeError
            "__init__() got an unexpected keyword argument priority") :=
  ⟨rfl, rfl, rfl, rfl, rfl, rfl⟩

end legacy
